import Mathlib

/-!
Verification of the environment-resolution core of PythonAliasManager.

The development shallowly embeds the relevant parts of
`src/alias_manager/venv_detector.py`, `src/alias_manager/dependency_manager.py`
and the dependency-check slice of `src/alias_manager/core.py`.

Filesystem paths are modelled as lists of components measured from the
filesystem root (the root directory is `[]`, and `Path.parent` is
`List.dropLast`).  The filesystem itself is a triple of total functions
giving, for each path, whether it is a directory, whether it is a file,
and (for files that get opened) its textual content.
-/

/-- Abstract filesystem: directory test, file test, and file contents. -/
structure FS where
  isDir : List String → Bool
  isFile : List String → Bool
  content : List String → String

/-- `Path.exists()`: true when the path is a directory or a file. -/
def FS.pathExists (fs : FS) (p : List String) : Bool :=
  fs.isDir p || fs.isFile p

/-- Split a character list at every occurrence of a separator character;
Python `str.split(sep)` for a one-character separator. -/
def splitOnChar (sep : Char) : List Char → List (List Char)
  | [] => [[]]
  | c :: rest =>
    if c = sep then [] :: splitOnChar sep rest
    else
      match splitOnChar sep rest with
      | [] => [[c]]
      | g :: gs => (c :: g) :: gs

/-- Python `str.split('==')`: split at every occurrence of two equals signs. -/
def splitOnEqEq : List Char → List (List Char)
  | [] => [[]]
  | [c] => [[c]]
  | c1 :: c2 :: rest =>
    if c1 = '=' && c2 = '=' then [] :: splitOnEqEq rest
    else
      match splitOnEqEq (c2 :: rest) with
      | [] => [[c1]]
      | g :: gs => (c1 :: g) :: gs

/-- Python `str.strip()`: remove leading and trailing whitespace. -/
def trimL (s : List Char) : List Char :=
  ((s.dropWhile Char.isWhitespace).reverse.dropWhile Char.isWhitespace).reverse

/-- Python `str.startswith(p)` over character lists. -/
def startsWithL (p s : List Char) : Bool :=
  s.take p.length == p

/-- The candidate isolated-environment directory names scanned by
`VenvDetector.detect_venv` (venv_detector.py line 24 and line 82). -/
def venvNames : List String := ["venv", "env", ".venv", ".env"]

/-- The activation-artifact locations probed inside a candidate environment
directory (venv_detector.py lines 28-32 and 85-89). -/
def activateScripts (venvPath : List String) : List (List String) :=
  [venvPath ++ ["Scripts", "activate"],
   venvPath ++ ["Scripts", "activate.bat"],
   venvPath ++ ["bin", "activate"]]

/-- The inner `for activate_script in activate_scripts` loop: the first
existing activation artifact, if any. -/
def findActivate (fs : FS) (venvPath : List String) : Option (List String) :=
  (activateScripts venvPath).find? fs.pathExists

/-- The `venv_info` dictionary built by `VenvDetector.detect_venv`.  Each
optional field is `none` exactly when the corresponding dictionary key is
absent. -/
structure VenvInfo where
  path : Option (List String) := none
  type : Option String := none
  activate_script : Option (List String) := none
  conda_env_file : Option (List String) := none
  conda_env_name : Option String := none
  requirements_file : Option (List String) := none
  parent_level : Option Nat := none
deriving DecidableEq

/-- A candidate name denotes a valid isolated environment in directory `d`:
the directory exists, is a directory, and holds an activation artifact. -/
def validVenvDir (fs : FS) (d : List String) (n : String) : Bool :=
  (fs.pathExists (d ++ [n]) && fs.isDir (d ++ [n])) && (findActivate fs (d ++ [n])).isSome

/-- Some candidate isolated-environment name is valid in directory `d`. -/
def hasValidVenv (fs : FS) (d : List String) : Bool :=
  venvNames.any (validVenvDir fs d)

/-- One iteration of the tier-1 loop (venv_detector.py lines 24-40): a valid
candidate overwrites `path`, `type` and `activate_script`; the loop does not
terminate on the first hit. -/
def tier1Step (fs : FS) (d : List String) (acc : VenvInfo) (n : String) : VenvInfo :=
  if fs.pathExists (d ++ [n]) && fs.isDir (d ++ [n]) then
    match findActivate fs (d ++ [n]) with
    | some a => { acc with path := some (d ++ [n]), type := some "venv", activate_script := some a }
    | none => acc
  else acc

/-- Tier 1 of `detect_venv`: scan the script directory for isolated
environments (venv_detector.py lines 23-40). -/
def tier1 (fs : FS) (d : List String) (vi : VenvInfo) : VenvInfo :=
  venvNames.foldl (tier1Step fs d) vi

/-- The four conda environment-file paths probed in a directory
(venv_detector.py lines 43-48). -/
def condaPaths (d : List String) : List (List String) :=
  [d ++ ["environment.yml"], d ++ ["environment.yaml"],
   d ++ ["conda.yml"], d ++ ["conda.yaml"]]

/-- The token captured after a literal `name:` occurrence: skip whitespace,
then take at least one character that is neither whitespace nor a hash. -/
def tokenAfterNameColon (cs : List Char) : Option (List Char) :=
  match (cs.dropWhile (fun c => c.isWhitespace)).takeWhile
      (fun c => !(c.isWhitespace) && c != '#') with
  | [] => none
  | t => some t

/-- Leftmost search for the pattern used by `parse_conda_env_name`: a literal
`name:` followed by optional whitespace and a nonempty run of characters that
are neither whitespace nor a hash (venv_detector.py line 155). -/
def searchNameMatch : List Char → Option (List Char)
  | [] => none
  | c :: rest =>
    if (c :: rest).take 5 = "name:".toList then
      match tokenAfterNameColon ((c :: rest).drop 5) with
      | some t => some t
      | none => searchNameMatch rest
    else searchNameMatch rest

/-- Python `.strip` of double and single quotes from both ends
(venv_detector.py line 157). -/
def stripQuotes (cs : List Char) : String :=
  String.mk (((cs.dropWhile (fun c => c = '"' || c = '\'')).reverse.dropWhile
      (fun c => c = '"' || c = '\'')).reverse)

/-- `VenvDetector.parse_conda_env_name` (venv_detector.py lines 144-162):
the first stripped line beginning with `name:` whose pattern search succeeds
yields the captured token with surrounding quotes stripped. -/
def parse_conda_env_name_lines : List (List Char) → Option String
  | [] => none
  | l :: ls =>
    if startsWithL "name:".toList (trimL l) then
      match searchNameMatch (trimL l) with
      | some t => some (stripQuotes t)
      | none => parse_conda_env_name_lines ls
    else parse_conda_env_name_lines ls

/-- `VenvDetector.parse_conda_env_name` applied to a file's content. -/
def parse_conda_env_name (content : String) : Option String :=
  parse_conda_env_name_lines (splitOnChar '\n' content.toList)

/-- Tier 2 of `detect_venv` (venv_detector.py lines 42-58): the first existing
conda environment file sets `conda_env_file`, conditionally `conda_env_name`
(only when the parsed name is truthy), and sets `type` to `conda`
unconditionally. -/
def tier2 (fs : FS) (d : List String) (vi : VenvInfo) : VenvInfo :=
  match (condaPaths d).find? fs.pathExists with
  | some f =>
    match parse_conda_env_name (fs.content f) with
    | some nm =>
      if nm != "" then
        { vi with conda_env_file := some f, conda_env_name := some nm, type := some "conda" }
      else
        { vi with conda_env_file := some f, type := some "conda" }
    | none => { vi with conda_env_file := some f, type := some "conda" }
  | none => vi

/-- The four requirements-file paths probed in the script directory, in the
order of venv_detector.py lines 61-66: requirements.txt, pyproject.toml,
setup.py, poetry.lock. -/
def reqPaths (d : List String) : List (List String) :=
  [d ++ ["requirements.txt"], d ++ ["pyproject.toml"],
   d ++ ["setup.py"], d ++ ["poetry.lock"]]

/-- Python truthiness of an optional string: absent and empty are falsy. -/
def truthy : Option String → Bool
  | none => false
  | some s => s != ""

/-- Tier 3 of `detect_venv` (venv_detector.py lines 60-73): the first existing
requirements file sets `requirements_file`; `type` becomes `project` only when
no earlier tier set a truthy `type`. -/
def tier3 (fs : FS) (d : List String) (vi : VenvInfo) : VenvInfo :=
  match (reqPaths d).find? fs.pathExists with
  | some f =>
    if truthy vi.type then { vi with requirements_file := some f }
    else { vi with requirements_file := some f, type := some "project" }
  | none => vi

/-- The scan of one ancestor level (venv_detector.py lines 82-102): the first
valid candidate returns immediately with `parent_level = level + 1`, after
re-running the requirements scan over the paths built from the script
directory (the `requirements_files` list of line 61 is reused unchanged). -/
def scanLevelGo (fs : FS) (sd pd : List String) (level : Nat) (vi : VenvInfo) :
    List String → Option VenvInfo
  | [] => none
  | n :: ns =>
    if fs.pathExists (pd ++ [n]) && fs.isDir (pd ++ [n]) then
      match findActivate fs (pd ++ [n]) with
      | some a =>
        match (reqPaths sd).find? fs.pathExists with
        | some f =>
          some { vi with path := some (pd ++ [n]), type := some "venv",
                         activate_script := some a, parent_level := some (level + 1),
                         requirements_file := some f }
        | none =>
          some { vi with path := some (pd ++ [n]), type := some "venv",
                         activate_script := some a, parent_level := some (level + 1) }
      | none => scanLevelGo fs sd pd level vi ns
    else scanLevelGo fs sd pd level vi ns

/-- Tier 4 of `detect_venv` (venv_detector.py lines 75-104): walk up to three
parent levels (`fuel` starts at 3, mirroring `range(3)`), stopping at the
filesystem root; the first level producing a valid environment returns
immediately. -/
def ancestorWalk (fs : FS) (sd : List String) (vi : VenvInfo) :
    Nat → Nat → List String → Option VenvInfo
  | _, 0, _ => none
  | level, fuel + 1, pd =>
    if pd = pd.dropLast then none
    else
      match scanLevelGo fs sd pd level vi venvNames with
      | some hit => some hit
      | none => ancestorWalk fs sd vi (level + 1) fuel pd.dropLast

/-- Tiers 1-3 of `detect_venv` applied in sequence to the empty dictionary. -/
def tiers123 (fs : FS) (d : List String) : VenvInfo :=
  tier3 fs d (tier2 fs d (tier1 fs d {}))

/-- `VenvDetector.detect_venv` (venv_detector.py lines 16-106).  The ancestor
walk runs only when tiers 1-3 did not leave `type = venv`; an ancestor hit is
returned directly, otherwise the accumulated dictionary is returned, or `none`
when it is still empty. -/
def detect_venv (fs : FS) (sp : List String) : Option VenvInfo :=
  match (if (tiers123 fs sp.dropLast).type ≠ some "venv" then
           ancestorWalk fs sp.dropLast (tiers123 fs sp.dropLast) 0 3 sp.dropLast.dropLast
         else none) with
  | some hit => some hit
  | none =>
    if tiers123 fs sp.dropLast = ({} : VenvInfo) then none
    else some (tiers123 fs sp.dropLast)

/-!
Embedding of `src/alias_manager/dependency_manager.py`.
-/

/-- ASCII alphanumeric, the character class `[a-zA-Z0-9]`. -/
def isAsciiAlnum (c : Char) : Bool := c.isAlpha || c.isDigit

/-- The character class `[a-zA-Z0-9._-]`. -/
def isTokChar (c : Char) : Bool := isAsciiAlnum c || c = '.' || c = '_' || c = '-'

/-- The longest prefix of `l` whose final character is alphanumeric, if any. -/
def lastAlnumPrefix (l : List Char) : Option (List Char) :=
  match (l.reverse.dropWhile (fun c => !(isAsciiAlnum c))).reverse with
  | [] => none
  | p => some p

/-- `re.match` of the package-name pattern
`^([a-zA-Z0-9][a-zA-Z0-9._-]*[a-zA-Z0-9]|[a-zA-Z0-9])` used throughout
dependency_manager.py (lines 30, 70, 82, 90, 127, 133): a greedy match of an
alphanumeric-delimited token, falling back to a single alphanumeric. -/
def leadingToken (s : List Char) : Option (List Char) :=
  match s with
  | [] => none
  | c :: rest =>
    if isAsciiAlnum c then
      match lastAlnumPrefix (rest.takeWhile isTokChar) with
      | some p => some (c :: p)
      | none => some [c]
    else none

/-- `DependencyManager.parse_requirements_txt` (dependency_manager.py lines
16-37): skip blank and `#` lines, collect the leading package token of each
surviving line, silently dropping lines with no match. -/
def parse_requirements_txt (content : String) : List String :=
  (splitOnChar '\n' content.toList).foldl
    (fun acc rawLine =>
      if trimL rawLine = [] || startsWithL "#".toList (trimL rawLine) then acc
      else
        match leadingToken (trimL rawLine) with
        | some t => acc ++ [String.mk t]
        | none => acc)
    []

/-- One iteration of the line loop of
`DependencyManager.parse_conda_env_dependencies` (dependency_manager.py lines
109-135).  The state is `(in_dependencies, in_pip_section, packages)`.  Note
that the line is stripped (line 110) before any indentation test, exactly as
in the source. -/
def condaDepStep (st : Bool × Bool × List String) (rawLine : List Char) :
    Bool × Bool × List String :=
  let line := trimL rawLine
  if startsWithL "dependencies:".toList line then (true, st.2.1, st.2.2)
  else
    let inD : Bool :=
      if line != [] && !(startsWithL " ".toList line) && !(startsWithL "-".toList line) && st.1
      then false else st.1
    let inP : Bool :=
      if line != [] && !(startsWithL " ".toList line) && !(startsWithL "-".toList line) && st.1
      then false else st.2.1
    if inD && startsWithL "- ".toList line then
      if trimL (line.drop 2) = "pip:".toList then (inD, true, st.2.2)
      else if !inP then
        match leadingToken (trimL (line.drop 2)) with
        | some t =>
          if String.mk t != "python" then (inD, inP, st.2.2 ++ [String.mk t])
          else (inD, inP, st.2.2)
        | none => (inD, inP, st.2.2)
      else (inD, inP, st.2.2)
    else if inD && inP && startsWithL "  - ".toList line then
      match leadingToken (trimL (line.drop 4)) with
      | some t => (inD, inP, st.2.2 ++ [String.mk t])
      | none => (inD, inP, st.2.2)
    else (inD, inP, st.2.2)

/-- `DependencyManager.parse_conda_env_dependencies` (dependency_manager.py
lines 99-140) applied to a file's content. -/
def parse_conda_env_dependencies (content : String) : List String :=
  ((splitOnChar '\n' content.toList).foldl condaDepStep (false, false, [])).2.2

/-- Outcome of the `pip list --format=freeze` subprocess invocation
(dependency_manager.py lines 146-147): either an exception (missing
interpreter, timeout) or a completed process with a return code and stdout. -/
inductive PipListOutcome where
  | failure
  | completed (returncode : Int) (stdout : String)
deriving DecidableEq

/-- `DependencyManager.get_installed_packages` (dependency_manager.py lines
142-156).  The Python set of lowercased names is modelled as the list of
collected names; only membership and emptiness of the result are ever used by
the caller, and both agree with the set semantics. -/
def get_installed_packages (inv : PipListOutcome) : List String :=
  match inv with
  | .failure => []
  | .completed rc out =>
    if rc = 0 then
      (splitOnChar '\n' (trimL out.toList)).foldl
        (fun acc line =>
          if (splitOnEqEq line).length ≥ 2 then
            acc ++ [String.mk (((splitOnEqEq line).headD []).map Char.toLower)]
          else acc)
        []
    else []

/-- Outcome of one `subprocess.run` of an installer command: success
(return code 0), a non-zero exit, or a raised exception. -/
inductive RunOutcome where
  | ok
  | exit (code : Int)
  | exn
deriving DecidableEq

/-- `DependencyManager.install_missing_dependencies` (dependency_manager.py
lines 158-178).  `runner` stands for `subprocess.run`; the second component of
the result is the list of commands actually handed to `subprocess.run`, so an
empty trace means no subprocess was started. -/
def install_missing_dependencies (runner : List String → RunOutcome)
    (python_exe : String) (missing : List String) : Bool × List (List String) :=
  if missing = [] then (true, [])
  else
    match runner ([python_exe, "-m", "pip", "install"] ++ missing) with
    | .ok => (true, [[python_exe, "-m", "pip", "install"] ++ missing])
    | .exit _ => (false, [[python_exe, "-m", "pip", "install"] ++ missing])
    | .exn => (false, [[python_exe, "-m", "pip", "install"] ++ missing])

/-- `DependencyManager.install_conda_dependencies` (dependency_manager.py
lines 180-213): on a non-zero exit of the plain `conda install`, retry once
with the conda-forge channel; an exception aborts with failure.  The second
component again traces the commands handed to `subprocess.run`. -/
def install_conda_dependencies (runner : List String → RunOutcome)
    (conda_env_name : String) (missing : List String) : Bool × List (List String) :=
  if missing = [] then (true, [])
  else
    match runner (["conda", "install", "-n", conda_env_name, "-y"] ++ missing) with
    | .ok => (true, [["conda", "install", "-n", conda_env_name, "-y"] ++ missing])
    | .exn => (false, [["conda", "install", "-n", conda_env_name, "-y"] ++ missing])
    | .exit _ =>
      match runner (["conda", "install", "-n", conda_env_name, "-c", "conda-forge", "-y"] ++ missing) with
      | .ok =>
        (true, [["conda", "install", "-n", conda_env_name, "-y"] ++ missing,
                ["conda", "install", "-n", conda_env_name, "-c", "conda-forge", "-y"] ++ missing])
      | _ =>
        (false, [["conda", "install", "-n", conda_env_name, "-y"] ++ missing,
                 ["conda", "install", "-n", conda_env_name, "-c", "conda-forge", "-y"] ++ missing])

/-!
Embedding of the dependency-check slice of
`PythonAliasManager.check_dependencies` (core.py lines 404-493), starting from
the point where a requirements file has been found and parsed.
-/

/-- The missing-package computation of core.py lines 445-453: each required
package whose lowercased name is not in the installed set is missing; order
of the required list is preserved. -/
def compute_missing (required installed : List String) : List String :=
  required.filter
    (fun p => !(installed.contains (String.mk (p.toList.map Char.toLower))))

/-- The distinct exit points of the check-dependencies slice.  `toBool`
recovers the boolean actually returned by the Python method. -/
inductive CheckOutcome where
  | noRequirements
  | inventoryFailure
  | allInstalled
  | missingNotInstalled (missing : List String)
  | condaNameMissing
  | installResult (ok : Bool) (missing : List String)
deriving DecidableEq

/-- The boolean value returned at each exit point of the slice. -/
def CheckOutcome.toBool : CheckOutcome → Bool
  | .noRequirements => true
  | .inventoryFailure => false
  | .allInstalled => true
  | .missingNotInstalled _ => false
  | .condaNameMissing => false
  | .installResult ok _ => ok

/-- The slice of `PythonAliasManager.check_dependencies` from core.py line 407
(requirements already parsed into `required`) to line 493.  `inv` is the
outcome of the `pip list` subprocess, `isCondaEnv` reflects
`venv_info.get('type') == 'conda'`, `condaEnvName` reflects
`venv_info.get('conda_env_name')`, and the two runners stand for the
`subprocess.run` calls made by the installers. -/
def check_deps_slice (required : List String) (inv : PipListOutcome)
    (install_missing : Bool) (isCondaEnv : Bool) (condaEnvName : Option String)
    (pipRunner condaRunner : List String → RunOutcome) (python_exe : String) :
    CheckOutcome :=
  if required = [] then .noRequirements
  else
    if get_installed_packages inv = [] then .inventoryFailure
    else
      if compute_missing required (get_installed_packages inv) = [] then .allInstalled
      else if install_missing then
        if isCondaEnv then
          match condaEnvName with
          | some nm =>
            if nm != "" then
              .installResult
                (install_conda_dependencies condaRunner nm
                  (compute_missing required (get_installed_packages inv))).1
                (compute_missing required (get_installed_packages inv))
            else .condaNameMissing
          | none => .condaNameMissing
        else
          .installResult
            (install_missing_dependencies pipRunner python_exe
              (compute_missing required (get_installed_packages inv))).1
            (compute_missing required (get_installed_packages inv))
      else .missingNotInstalled (compute_missing required (get_installed_packages inv))

/-!
Concrete filesystems used to evaluate `detect_venv` at specific inputs.
-/

/-- A script directory holding both a valid isolated environment (`venv` with
`bin/activate`) and a conda manifest `environment.yml`. -/
def fsBothVenvConda : FS :=
  { isDir := fun p => p == ["p", "venv"],
    isFile := fun p =>
      p == ["p", "venv", "bin", "activate"] || p == ["p", "environment.yml"],
    content := fun p => if p == ["p", "environment.yml"] then "name: demo" else "" }

/-- A script directory with a valid isolated environment and no conda
manifest, below an ancestor that also holds a valid isolated environment. -/
def fsOwnAndAncestorVenv : FS :=
  { isDir := fun p => p == ["a", "p", "venv"] || p == ["a", "venv"],
    isFile := fun p =>
      p == ["a", "p", "venv", "bin", "activate"] || p == ["a", "venv", "bin", "activate"],
    content := fun _ => "" }

/-- No environment in the script directory `["a", "b", "c"]` or its first
parent; a valid isolated environment two parent levels up, at `["a"]`. -/
def fsGrandparentVenv : FS :=
  { isDir := fun p => p == ["a", "venv"],
    isFile := fun p => p == ["a", "venv", "bin", "activate"],
    content := fun _ => "" }

/-- A valid isolated environment and a `requirements.txt` one parent level
above the script directory `["a", "b"]`; nothing in the script directory. -/
def fsAncestorVenvWithReq : FS :=
  { isDir := fun p => p == ["a", "venv"],
    isFile := fun p =>
      p == ["a", "venv", "bin", "activate"] || p == ["a", "requirements.txt"],
    content := fun _ => "" }

/-- A script directory holding both `requirements.txt` and `poetry.lock`. -/
def fsReqAndLock : FS :=
  { isDir := fun _ => false,
    isFile := fun p => p == ["p", "requirements.txt"] || p == ["p", "poetry.lock"],
    content := fun _ => "" }

/-- A second directory holding both `requirements.txt` and `poetry.lock`,
used to instantiate the amended tier-3 priority statement. -/
def fsReqAndLockW : FS :=
  { isDir := fun _ => false,
    isFile := fun p => p == ["q", "requirements.txt"] || p == ["q", "poetry.lock"],
    content := fun _ => "" }

/-!
Lemmas about the tiers of `detect_venv`.
-/

theorem tier1Step_not_valid (fs : FS) (d : List String) (vi : VenvInfo) (n : String)
    (h : validVenvDir fs d n = false) : tier1Step fs d vi n = vi := by
  unfold tier1Step
  unfold validVenvDir at h
  cases hc : (fs.pathExists (d ++ [n]) && fs.isDir (d ++ [n])) with
  | false => simp [hc]
  | true =>
    cases ha : findActivate fs (d ++ [n]) with
    | none => simp [hc, ha]
    | some a => rw [hc, ha] at h; simp at h

theorem tier1Step_type_of_valid (fs : FS) (d : List String) (vi : VenvInfo) (n : String)
    (h : validVenvDir fs d n = true) : (tier1Step fs d vi n).type = some "venv" := by
  unfold validVenvDir at h
  simp only [Bool.and_eq_true] at h
  obtain ⟨hc, hs⟩ := h
  obtain ⟨a, ha⟩ := Option.isSome_iff_exists.mp hs
  unfold tier1Step
  simp [hc, ha]

theorem tier1Step_parent (fs : FS) (d : List String) (vi : VenvInfo) (n : String) :
    (tier1Step fs d vi n).parent_level = vi.parent_level := by
  unfold tier1Step
  cases hc : (fs.pathExists (d ++ [n]) && fs.isDir (d ++ [n])) with
  | false => simp [hc]
  | true =>
    cases ha : findActivate fs (d ++ [n]) with
    | none => simp [hc, ha]
    | some a => simp [hc, ha]

theorem tier1_fold_id (fs : FS) (d : List String) (names : List String) :
    ∀ vi : VenvInfo, names.any (validVenvDir fs d) = false →
      names.foldl (tier1Step fs d) vi = vi := by
  induction names with
  | nil => intro vi _; rfl
  | cons n ns ih =>
    intro vi h
    rw [List.any_cons, Bool.or_eq_false_iff] at h
    rw [List.foldl_cons, tier1Step_not_valid fs d vi n h.1]
    exact ih vi h.2

theorem tier1_fold_venv (fs : FS) (d : List String) (names : List String) :
    ∀ vi : VenvInfo, names.any (validVenvDir fs d) = true →
      (names.foldl (tier1Step fs d) vi).type = some "venv" := by
  induction names with
  | nil => intro vi h; simp at h
  | cons n ns ih =>
    intro vi h
    rw [List.foldl_cons]
    cases hx : ns.any (validVenvDir fs d) with
    | true => exact ih _ hx
    | false =>
      rw [List.any_cons, hx, Bool.or_false] at h
      rw [tier1_fold_id fs d ns _ hx]
      exact tier1Step_type_of_valid fs d vi n h

theorem tier1_fold_parent (fs : FS) (d : List String) (names : List String) :
    ∀ vi : VenvInfo, (names.foldl (tier1Step fs d) vi).parent_level = vi.parent_level := by
  induction names with
  | nil => intro vi; rfl
  | cons n ns ih =>
    intro vi
    rw [List.foldl_cons, ih (tier1Step fs d vi n), tier1Step_parent]

theorem tier2_id (fs : FS) (d : List String) (vi : VenvInfo)
    (h : (condaPaths d).find? fs.pathExists = none) : tier2 fs d vi = vi := by
  unfold tier2
  rw [h]

theorem tier2_type_some (fs : FS) (d : List String) (vi : VenvInfo) (f : List String)
    (h : (condaPaths d).find? fs.pathExists = some f) :
    (tier2 fs d vi).type = some "conda" := by
  unfold tier2
  rw [h]
  cases hp : parse_conda_env_name (fs.content f) with
  | none => simp [hp]
  | some nm =>
    by_cases hb : nm = ""
    · simp [hp, hb]
    · simp [hp, hb]

theorem tier3_truthy (fs : FS) (d : List String) (vi : VenvInfo)
    (h : truthy vi.type = true) :
    (tier3 fs d vi).type = vi.type ∧ (tier3 fs d vi).parent_level = vi.parent_level := by
  unfold tier3
  cases hf : (reqPaths d).find? fs.pathExists with
  | none => exact ⟨rfl, rfl⟩
  | some f => simp [h]

theorem tier3_type_cases (fs : FS) (d : List String) (vi : VenvInfo) :
    (tier3 fs d vi).type = vi.type ∨ (tier3 fs d vi).type = some "project" := by
  unfold tier3
  cases hf : (reqPaths d).find? fs.pathExists with
  | none => exact Or.inl rfl
  | some f =>
    cases ht : truthy vi.type with
    | true => exact Or.inl (by simp [ht])
    | false => exact Or.inr (by simp [ht])

theorem tier3_req (fs : FS) (d : List String) (vi : VenvInfo) (f : List String)
    (h : (reqPaths d).find? fs.pathExists = some f) :
    (tier3 fs d vi).requirements_file = some f := by
  unfold tier3
  rw [h]
  cases ht : truthy vi.type with
  | true => simp [ht]
  | false => simp [ht]

theorem scanLevelGo_none (fs : FS) (sd pd : List String) (level : Nat)
    (names : List String) :
    ∀ vi : VenvInfo, names.any (validVenvDir fs pd) = false →
      scanLevelGo fs sd pd level vi names = none := by
  induction names with
  | nil => intro vi _; rfl
  | cons n ns ih =>
    intro vi h
    rw [List.any_cons, Bool.or_eq_false_iff] at h
    have h1 := h.1
    unfold validVenvDir at h1
    rw [scanLevelGo]
    cases hc : (fs.pathExists (pd ++ [n]) && fs.isDir (pd ++ [n])) with
    | false =>
      simp only [hc, Bool.false_eq_true, if_false]
      exact ih vi h.2
    | true =>
      cases ha : findActivate fs (pd ++ [n]) with
      | none =>
        simp only [hc, if_true, ha]
        exact ih vi h.2
      | some a => rw [hc, ha] at h1; simp at h1

theorem scanLevelGo_some (fs : FS) (sd pd : List String) (level : Nat)
    (names : List String) :
    ∀ vi : VenvInfo, names.any (validVenvDir fs pd) = true →
      ∃ vi', scanLevelGo fs sd pd level vi names = some vi' ∧
        vi'.type = some "venv" ∧ vi'.parent_level = some (level + 1) := by
  induction names with
  | nil => intro vi h; simp at h
  | cons n ns ih =>
    intro vi h
    cases hv : validVenvDir fs pd n with
    | true =>
      have hv' := hv
      unfold validVenvDir at hv'
      simp only [Bool.and_eq_true] at hv'
      obtain ⟨hc, hs⟩ := hv'
      obtain ⟨a, ha⟩ := Option.isSome_iff_exists.mp hs
      rw [scanLevelGo]
      cases hf : (reqPaths sd).find? fs.pathExists with
      | some f =>
        refine ⟨{ vi with path := some (pd ++ [n]), type := some "venv",
                          activate_script := some a, parent_level := some (level + 1),
                          requirements_file := some f }, ?_, rfl, rfl⟩
        simp [hc.1, hc.2, ha, hf]
      | none =>
        refine ⟨{ vi with path := some (pd ++ [n]), type := some "venv",
                          activate_script := some a, parent_level := some (level + 1) },
                ?_, rfl, rfl⟩
        simp [hc.1, hc.2, ha, hf]
    | false =>
      have h2 : ns.any (validVenvDir fs pd) = true := by
        rw [List.any_cons, hv, Bool.false_or] at h
        exact h
      obtain ⟨vi', hgo, ht, hp⟩ := ih vi h2
      refine ⟨vi', ?_, ht, hp⟩
      have hv' := hv
      unfold validVenvDir at hv'
      rw [scanLevelGo]
      cases hc : (fs.pathExists (pd ++ [n]) && fs.isDir (pd ++ [n])) with
      | false =>
        simp only [hc, Bool.false_eq_true, if_false]
        exact hgo
      | true =>
        cases ha : findActivate fs (pd ++ [n]) with
        | none =>
          simp only [hc, if_true, ha]
          exact hgo
        | some a => rw [hc, ha] at hv'; simp at hv'

theorem scanLevelGo_req (fs : FS) (sd pd : List String) (level : Nat)
    (names : List String) (f : List String)
    (hf : (reqPaths sd).find? fs.pathExists = some f) :
    ∀ (vi vi' : VenvInfo), scanLevelGo fs sd pd level vi names = some vi' →
      vi'.requirements_file = some f := by
  induction names with
  | nil => intro vi vi' h; simp [scanLevelGo] at h
  | cons n ns ih =>
    intro vi vi' h
    rw [scanLevelGo] at h
    cases hc : (fs.pathExists (pd ++ [n]) && fs.isDir (pd ++ [n])) with
    | false =>
      simp only [hc, Bool.false_eq_true, if_false] at h
      exact ih vi vi' h
    | true =>
      simp only [hc, if_true] at h
      cases ha : findActivate fs (pd ++ [n]) with
      | none =>
        rw [ha] at h
        exact ih vi vi' h
      | some a =>
        rw [ha, hf] at h
        simp only [Option.some.injEq] at h
        rw [← h]

theorem ancestorWalk_req (fs : FS) (sd : List String) (f : List String)
    (hf : (reqPaths sd).find? fs.pathExists = some f) :
    ∀ (fuel level : Nat) (pd : List String) (vi vi' : VenvInfo),
      ancestorWalk fs sd vi level fuel pd = some vi' →
      vi'.requirements_file = some f := by
  intro fuel
  induction fuel with
  | zero => intro level pd vi vi' h; simp [ancestorWalk] at h
  | succ k ih =>
    intro level pd vi vi' h
    rw [ancestorWalk] at h
    by_cases hr : pd = pd.dropLast
    · rw [if_pos hr] at h; simp at h
    · rw [if_neg hr] at h
      cases hs : scanLevelGo fs sd pd level vi venvNames with
      | some hit =>
        rw [hs] at h
        simp only [Option.some.injEq] at h
        rw [← h]
        exact scanLevelGo_req fs sd pd level venvNames f hf vi hit hs
      | none =>
        rw [hs] at h
        exact ih (level + 1) pd.dropLast vi vi' h

theorem tiers123_type_ne_venv (fs : FS) (d : List String)
    (h : hasValidVenv fs d = false) : (tiers123 fs d).type ≠ some "venv" := by
  intro hEq
  unfold tiers123 tier1 at hEq
  rw [tier1_fold_id fs d venvNames {} h] at hEq
  rcases tier3_type_cases fs d (tier2 fs d {}) with hA | hA
  · rw [hA] at hEq
    cases hf : (condaPaths d).find? fs.pathExists with
    | none =>
      rw [tier2_id fs d {} hf] at hEq
      exact absurd hEq (by decide)
    | some f =>
      rw [tier2_type_some fs d {} f hf] at hEq
      simp at hEq
  · rw [hA] at hEq
    simp at hEq

/-- Whenever the tier-3 scan finds a requirements file, `detect_venv` returns
a dictionary whose `requirements_file` is that file: the ancestor walk, if it
hits, re-runs the same script-directory scan, and otherwise the tier-3 value
survives. -/
theorem detect_req_of_find (fs : FS) (sp : List String) (f : List String)
    (hfind : (reqPaths sp.dropLast).find? fs.pathExists = some f) :
    ∃ vi, detect_venv fs sp = some vi ∧ vi.requirements_file = some f := by
  have hreqf : (tiers123 fs sp.dropLast).requirements_file = some f := by
    unfold tiers123
    exact tier3_req fs sp.dropLast _ f hfind
  have hne : tiers123 fs sp.dropLast ≠ ({} : VenvInfo) := by
    intro hEq
    rw [hEq] at hreqf
    exact Option.noConfusion hreqf
  unfold detect_venv
  by_cases hc : (tiers123 fs sp.dropLast).type ≠ some "venv"
  · rw [if_pos hc]
    cases hw : ancestorWalk fs sp.dropLast (tiers123 fs sp.dropLast) 0 3 sp.dropLast.dropLast with
    | some hit =>
      exact ⟨hit, rfl,
        ancestorWalk_req fs sp.dropLast f hfind 3 0 sp.dropLast.dropLast _ hit hw⟩
    | none =>
      refine ⟨tiers123 fs sp.dropLast, ?_, hreqf⟩
      show (if tiers123 fs sp.dropLast = ({} : VenvInfo) then none
            else some (tiers123 fs sp.dropLast)) = some (tiers123 fs sp.dropLast)
      rw [if_neg hne]
  · rw [if_neg hc]
    refine ⟨tiers123 fs sp.dropLast, ?_, hreqf⟩
    show (if tiers123 fs sp.dropLast = ({} : VenvInfo) then none
          else some (tiers123 fs sp.dropLast)) = some (tiers123 fs sp.dropLast)
    rw [if_neg hne]

/-!
Claim theorems.
-/

/-- Claim C1, counterexample.  In a script directory holding both a valid
isolated environment (`venv` with `bin/activate`) and a conda manifest
`environment.yml`, `detect_venv` reports `type = conda`, not `venv`: tier 2
sets `type` unconditionally (venv_detector.py line 57), overriding tier 1, so
the claim that tier 2 sets the kind only when tier 1 left it unset is false. -/
theorem c1_counterexample :
    validVenvDir fsBothVenvConda ["p"] "venv" = true ∧
    fsBothVenvConda.pathExists ["p", "environment.yml"] = true ∧
    (detect_venv fsBothVenvConda ["p", "s.py"]).map VenvInfo.type
      = some (some "conda") := by decide

/-- Claim C1, amended.  For every script whose own directory contains a valid
isolated environment and no conda manifest, `detect_venv` returns
`type = venv` with no `parent_level` key (ancestor depth 0), regardless of
what ancestor directories contain: the ancestor walk is skipped because tier 1
left `type = venv`. -/
theorem c1_amended_isolated_in_place (fs : FS) (sp : List String)
    (h1 : hasValidVenv fs sp.dropLast = true)
    (h2 : (condaPaths sp.dropLast).find? fs.pathExists = none) :
    ∃ vi, detect_venv fs sp = some vi ∧ vi.type = some "venv" ∧
      vi.parent_level = none := by
  have ht1 : (tier1 fs sp.dropLast {}).type = some "venv" :=
    tier1_fold_venv fs sp.dropLast venvNames {} h1
  have hp1 : (tier1 fs sp.dropLast ({} : VenvInfo)).parent_level = none :=
    tier1_fold_parent fs sp.dropLast venvNames {}
  have htiers : tiers123 fs sp.dropLast = tier3 fs sp.dropLast (tier1 fs sp.dropLast {}) := by
    unfold tiers123
    rw [tier2_id fs sp.dropLast _ h2]
  have htr : truthy (tier1 fs sp.dropLast ({} : VenvInfo)).type = true := by
    rw [ht1]; rfl
  obtain ⟨hty3, hpl3⟩ := tier3_truthy fs sp.dropLast _ htr
  have hty : (tiers123 fs sp.dropLast).type = some "venv" := by rw [htiers, hty3, ht1]
  have hpl : (tiers123 fs sp.dropLast).parent_level = none := by rw [htiers, hpl3, hp1]
  have hne : tiers123 fs sp.dropLast ≠ ({} : VenvInfo) := by
    intro hEq
    rw [hEq] at hty
    exact absurd hty (by decide)
  refine ⟨tiers123 fs sp.dropLast, ?_, hty, hpl⟩
  unfold detect_venv
  rw [if_neg (fun hn => hn hty)]
  show (if tiers123 fs sp.dropLast = ({} : VenvInfo) then none
        else some (tiers123 fs sp.dropLast)) = some (tiers123 fs sp.dropLast)
  rw [if_neg hne]

/-- Witness for the amended claim C1 at a concrete filesystem whose script
directory and an ancestor both hold valid isolated environments. -/
theorem c1_amended_witness :
    ∃ vi, detect_venv fsOwnAndAncestorVenv ["a", "p", "s.py"] = some vi ∧
      vi.type = some "venv" ∧ vi.parent_level = none :=
  c1_amended_isolated_in_place fsOwnAndAncestorVenv ["a", "p", "s.py"]
    (by decide) (by decide)

/-- Claim C2, counterexample.  `get_installed_packages` yields the same empty
result for a subprocess failure and for a successful listing of an empty
environment, so the inventory step does not signal failure distinctly; and on
an empty-but-valid inventory with a nonempty required list, the
check-dependencies slice aborts with an error (core.py lines 440-442) instead
of proceeding and treating every required package as missing. -/
theorem c2_counterexample :
    get_installed_packages PipListOutcome.failure
      = get_installed_packages (PipListOutcome.completed 0 "") ∧
    check_deps_slice ["flask"] (PipListOutcome.completed 0 "") true false none
      (fun _ => RunOutcome.ok) (fun _ => RunOutcome.ok) "python3"
      = CheckOutcome.inventoryFailure :=
  ⟨rfl, rfl⟩

/-- Claim C2, amended.  The inventory step returns an empty set both on
subprocess failure and on an empty-but-valid listing, and the reconciliation
step aborts with an error whenever the installed set is empty while the
required list is not, regardless of which of the two produced the emptiness. -/
theorem c2_amended_empty_inventory_aborts (required : List String)
    (inv : PipListOutcome) (im isC : Bool) (cn : Option String)
    (pr cr : List String → RunOutcome) (pe : String)
    (hreq : required ≠ [])
    (hinv : get_installed_packages inv = []) :
    check_deps_slice required inv im isC cn pr cr pe = CheckOutcome.inventoryFailure := by
  unfold check_deps_slice
  rw [if_neg hreq, hinv]
  simp

/-- Witness for the amended claim C2 at a failed inventory subprocess. -/
theorem c2_amended_witness :
    check_deps_slice ["flask"] PipListOutcome.failure false false none
      (fun _ => RunOutcome.ok) (fun _ => RunOutcome.ok) "python3"
      = CheckOutcome.inventoryFailure :=
  c2_amended_empty_inventory_aborts ["flask"] PipListOutcome.failure false false none
    (fun _ => RunOutcome.ok) (fun _ => RunOutcome.ok) "python3" (by decide) rfl

/-- Claim C3, evaluation at the failing input.  On the manifest of the claim,
`parse_conda_env_dependencies` returns `["numpy"]`, not `["numpy", "torch"]`:
every line is stripped before the indentation test (dependency_manager.py
line 110), so the nested-pip branch guarded by `startswith('  - ')` on
line 130 can never fire and pip sub-items are dropped. -/
theorem c3_pip_subitems_dropped :
    parse_conda_env_dependencies "dependencies:\n- python=3.9\n- numpy\n- pip:\n  - torch"
      = ["numpy"] := by decide

/-- Claim C4.  When the script's own directory and its first parent hold no
valid isolated environment, neither of those two directories is the
filesystem root, and the second parent holds a valid isolated environment,
`detect_venv` returns `type = venv` with `parent_level = 2`; the hypotheses
say nothing about deeper levels, so the walk provably stops at the first
(nearest) hit. -/
theorem c4_ancestor_depth_two (fs : FS) (sp : List String)
    (h0 : hasValidVenv fs sp.dropLast = false)
    (hrootA : sp.dropLast.dropLast ≠ sp.dropLast.dropLast.dropLast)
    (h1 : hasValidVenv fs sp.dropLast.dropLast = false)
    (hrootB : sp.dropLast.dropLast.dropLast ≠ sp.dropLast.dropLast.dropLast.dropLast)
    (h2 : hasValidVenv fs sp.dropLast.dropLast.dropLast = true) :
    ∃ vi, detect_venv fs sp = some vi ∧ vi.type = some "venv" ∧
      vi.parent_level = some 2 := by
  obtain ⟨vi', hscan, hty, hpl⟩ :=
    scanLevelGo_some fs sp.dropLast sp.dropLast.dropLast.dropLast 1 venvNames
      (tiers123 fs sp.dropLast) h2
  have hne := tiers123_type_ne_venv fs sp.dropLast h0
  refine ⟨vi', ?_, hty, hpl⟩
  unfold detect_venv
  rw [if_pos hne]
  show (match ancestorWalk fs sp.dropLast (tiers123 fs sp.dropLast) 0 (2 + 1)
          sp.dropLast.dropLast with
        | some hit => some hit
        | none =>
          if tiers123 fs sp.dropLast = ({} : VenvInfo) then none
          else some (tiers123 fs sp.dropLast)) = some vi'
  rw [ancestorWalk, if_neg hrootA,
    scanLevelGo_none fs sp.dropLast sp.dropLast.dropLast 0 venvNames
      (tiers123 fs sp.dropLast) h1]
  show (match ancestorWalk fs sp.dropLast (tiers123 fs sp.dropLast) 1 (1 + 1)
          sp.dropLast.dropLast.dropLast with
        | some hit => some hit
        | none =>
          if tiers123 fs sp.dropLast = ({} : VenvInfo) then none
          else some (tiers123 fs sp.dropLast)) = some vi'
  rw [ancestorWalk, if_neg hrootB, hscan]

/-- Witness for claim C4: a valid isolated environment exactly two parent
levels above the script directory, and nothing nearer. -/
theorem c4_witness :
    ∃ vi, detect_venv fsGrandparentVenv ["a", "b", "c", "s.py"] = some vi ∧
      vi.type = some "venv" ∧ vi.parent_level = some 2 :=
  c4_ancestor_depth_two fsGrandparentVenv ["a", "b", "c", "s.py"]
    (by decide) (by decide) (by decide) (by decide) (by decide)

/-- Claim C5, evaluation at the failing input.  The ancestor walk finds a
valid isolated environment one level up, and that same ancestor directory
holds a `requirements.txt`, yet the returned dictionary has no
`requirements_file`: the opportunistic re-check (venv_detector.py lines
97-101) reuses the `requirements_files` list built from the script's own
directory at line 61, so the ancestor's manifest is never examined, contrary
to the adjacent comment and the claim. -/
theorem c5_rescan_misses_ancestor_manifest :
    fsAncestorVenvWithReq.pathExists ["a", "requirements.txt"] = true ∧
    (detect_venv fsAncestorVenvWithReq ["a", "b", "s.py"]).map VenvInfo.parent_level
      = some (some 1) ∧
    (detect_venv fsAncestorVenvWithReq ["a", "b", "s.py"]).map VenvInfo.requirements_file
      = some none := by decide

/-- Claim C6, counterexample.  With both `requirements.txt` and `poetry.lock`
present, `manifestPath` is taken from `requirements.txt`: the fixed scan order
of venv_detector.py lines 61-66 checks `poetry.lock` last, not first. -/
theorem c6_counterexample :
    fsReqAndLock.pathExists ["p", "poetry.lock"] = true ∧
    fsReqAndLock.pathExists ["p", "requirements.txt"] = true ∧
    (detect_venv fsReqAndLock ["p", "s.py"]).map VenvInfo.requirements_file
      = some (some ["p", "requirements.txt"]) := by decide

/-- Claim C6, amended.  Tier 3 scans in the fixed order requirements.txt,
pyproject.toml, setup.py, poetry.lock — the package-lock-style file last — so
whenever `requirements.txt` exists in the script directory, `detect_venv`
reports it as the requirements file; and tier 3 sets `type = project` only
when no earlier tier set a truthy `type`. -/
theorem c6_amended_requirements_priority (fs : FS) (sp : List String)
    (h : fs.pathExists (sp.dropLast ++ ["requirements.txt"]) = true) :
    (∃ vi, detect_venv fs sp = some vi ∧
        vi.requirements_file = some (sp.dropLast ++ ["requirements.txt"])) ∧
    (∀ vi : VenvInfo, truthy vi.type = true → (tier3 fs sp.dropLast vi).type = vi.type) ∧
    (∀ vi : VenvInfo, truthy vi.type = false →
        (tier3 fs sp.dropLast vi).type = some "project") := by
  have hfind : (reqPaths sp.dropLast).find? fs.pathExists
      = some (sp.dropLast ++ ["requirements.txt"]) := by
    unfold reqPaths
    simp [List.find?, h]
  refine ⟨detect_req_of_find fs sp _ hfind, ?_, ?_⟩
  · intro vi ht
    exact (tier3_truthy fs sp.dropLast vi ht).1
  · intro vi ht
    unfold tier3
    rw [hfind]
    simp [ht]

/-- Witness for the amended claim C6 at a directory holding both
`requirements.txt` and `poetry.lock`. -/
theorem c6_amended_witness :
    ∃ vi, detect_venv fsReqAndLockW ["q", "s.py"] = some vi ∧
      vi.requirements_file = some ["q", "requirements.txt"] :=
  (c6_amended_requirements_priority fsReqAndLockW ["q", "s.py"] (by decide)).1

/-- Claim C7.  Parsing the plain-list manifest of the claim yields exactly
`["flask", "numpy"]`: blank lines and `#` lines are skipped, leading tokens
are extracted with version qualifiers discarded, and (second conjunct) a line
producing no token match is silently skipped. -/
theorem c7_plain_manifest_parsing :
    parse_requirements_txt "flask==2.0.1\n# comment\n\nnumpy>=1.20"
      = ["flask", "numpy"] ∧
    parse_requirements_txt "flask==2.0.1\n# comment\n\n==1.0\nnumpy>=1.20"
      = ["flask", "numpy"] := by decide

/-- Claim C8.  The missing set is the required list minus the installed set
by lowercased identity: with `flask` installed, `missing = ["numpy"]`; with
the inventory reporting `Flask`, the requirement `flask` is still satisfied
because the inventory lowercases names and the reconciler lowercases each
required name before the membership test. -/
theorem c8_reconcile_lowercased_difference :
    compute_missing ["flask", "numpy"]
        (get_installed_packages (PipListOutcome.completed 0 "flask==2.0.1"))
      = ["numpy"] ∧
    compute_missing ["flask", "numpy"]
        (get_installed_packages (PipListOutcome.completed 0 "Flask==2.0.1"))
      = ["numpy"] ∧
    compute_missing ["flask"]
        (get_installed_packages (PipListOutcome.completed 0 "Flask==2.0.1"))
      = [] := by decide

/-- Claim C9.  With an empty required list the slice returns success at its
first exit point, for every inventory outcome and every installer behaviour —
so the result is independent of the inventory and no inventory error can
occur (core.py lines 409-411 return before the inventory query at line 438). -/
theorem c9_empty_required_trivial_success (inv : PipListOutcome) (im isC : Bool)
    (cn : Option String) (pr cr : List String → RunOutcome) (pe : String) :
    check_deps_slice [] inv im isC cn pr cr pe = CheckOutcome.noRequirements ∧
    (check_deps_slice [] inv im isC cn pr cr pe).toBool = true :=
  ⟨rfl, rfl⟩

/-- Claim C10.  Both installers return success immediately on an empty
missing-package list, with an empty subprocess trace — no package-manager
invocation occurs — for every runner behaviour, interpreter path and
environment name. -/
theorem c10_empty_missing_no_subprocess (pr cr : List String → RunOutcome)
    (pe env : String) :
    install_missing_dependencies pr pe [] = (true, []) ∧
    install_conda_dependencies cr env [] = (true, []) :=
  ⟨rfl, rfl⟩
